import Mathlib

/-!
Verification of the filtering-and-aggregation core of the
Nurse-Patient-Ratio dashboard (src/dashboard.py).

The dashboard loads a CSV of daily hospital records, lets the user pick a
date range and a minimum staffing-ratio threshold, filters the table with
a date-range mask followed by a ratio mask, and computes four summary
aggregates over the filtered view.  Floating-point columns are embedded
as rationals; a timestamp is embedded as a day number together with a
time-of-day component that the day-granularity comparison discards.
-/

namespace Dashboard

/-- A timestamp as stored in the `D.O.A` column after parsing: a calendar
day (encoded as a single natural number that orders days chronologically)
plus a time-of-day component.  `pandas` `.dt.date` keeps only the day. -/
structure DateTime where
  day : ℕ
  timeOfDay : ℕ
  deriving DecidableEq, Repr

/-- The day-granularity projection used by the filter mask
(`df['D.O.A'].dt.date` in the source): the time of day is discarded. -/
def dtDate (t : DateTime) : ℕ := t.day

/-- One row of the loaded dataframe (src/dashboard.py columns `D.O.A`,
`Patient_Count`, `Estimated_Nurse_Count`, `Patients_Per_Nurse`,
`Occupancy_Rate`). -/
structure Record where
  doa : DateTime
  patient_count : ℚ
  estimated_nurse_count : ℚ
  patients_per_nurse : ℚ
  occupancy_rate : ℚ
  deriving DecidableEq, Repr

/-- The sidebar filter parameters: start date, end date (day-granularity
dates) and the minimum-ratio slider value. -/
structure FilterParameters where
  start_date : ℕ
  end_date : ℕ
  min_ratio : ℚ
  deriving DecidableEq, Repr

/-- The date-range mask of src/dashboard.py line 110:
`(df['D.O.A'].dt.date >= start_date) & (df['D.O.A'].dt.date <= end_date)`. -/
def mask (p : FilterParameters) (r : Record) : Bool :=
  decide (p.start_date ≤ dtDate r.doa) && decide (dtDate r.doa ≤ p.end_date)

/-- The ratio mask of src/dashboard.py line 112:
`df_filtered['Patients_Per_Nurse'] >= min_ratio`. -/
def ratioMask (p : FilterParameters) (r : Record) : Bool :=
  decide (p.min_ratio ≤ r.patients_per_nurse)

/-- The two-step filter of src/dashboard.py lines 110-112: the date-range
mask is applied first, the ratio mask second. -/
def df_filtered (df : List Record) (p : FilterParameters) : List Record :=
  ((df.filter (mask p)).filter (ratioMask p))

/-- The FilteredView exactly as the specification words it: the
subsequence of the dataset, in original order, of the records satisfying
`start_date <= record.date <= end_date AND patients_per_nurse >= min_ratio`
with the date compared at day granularity. -/
def specFilteredView (df : List Record) (p : FilterParameters) : List Record :=
  df.filter (fun r =>
    decide (p.start_date ≤ dtDate r.doa ∧ dtDate r.doa ≤ p.end_date ∧
      p.min_ratio ≤ r.patients_per_nurse))

/-- The ratio-before-date application order, used to state filter
order-independence. -/
def df_filtered_ratioFirst (df : List Record) (p : FilterParameters) : List Record :=
  ((df.filter (ratioMask p)).filter (mask p))

/-- Rounding of a rational to the nearest integer with ties going to the
even integer, the rounding mode of the Python builtin `round`. -/
def roundHalfEven (q : ℚ) : ℤ :=
  let f := ⌊q⌋
  if q - f < 1/2 then f
  else if (1:ℚ)/2 < q - f then f + 1
  else if f % 2 = 0 then f else f + 1

/-- Python `round(q, d)`: round to `d` decimal places (half to even). -/
def roundTo (d : ℕ) (q : ℚ) : ℚ :=
  (roundHalfEven (q * 10 ^ d) : ℚ) / 10 ^ d

/-- The arithmetic mean of a column, as computed by pandas `.mean()` over
a non-empty column: sum divided by count. -/
def mean (l : List ℚ) : ℚ := l.sum / (l.length : ℚ)

/-- src/dashboard.py line 125: `round(df_filtered['Patient_Count'].mean(), 1)`. -/
def avg_patients (view : List Record) : ℚ :=
  roundTo 1 (mean (view.map Record.patient_count))

/-- src/dashboard.py line 126:
`round(df_filtered['Estimated_Nurse_Count'].mean(), 1)`. -/
def avg_nurses (view : List Record) : ℚ :=
  roundTo 1 (mean (view.map Record.estimated_nurse_count))

/-- src/dashboard.py line 127:
`round(df_filtered['Patients_Per_Nurse'].mean(), 2)`. -/
def avg_ratio (view : List Record) : ℚ :=
  roundTo 2 (mean (view.map Record.patients_per_nurse))

/-- src/dashboard.py line 128:
`len(df_filtered[df_filtered['Patients_Per_Nurse'] > 4.0])`; the threshold
is the fixed literal 4.0, not the slider value. -/
def risk_days (view : List Record) : ℕ :=
  (view.filter (fun r => decide ((4:ℚ) < r.patients_per_nurse))).length

/-- The four summary scalars of src/dashboard.py lines 125-128. -/
structure Aggregates where
  patients : ℚ
  nurses : ℚ
  ratio : ℚ
  riskDays : ℕ
  deriving DecidableEq, Repr

/-- The aggregation step (src/dashboard.py lines 125-128) packaged. -/
def aggregate (view : List Record) : Aggregates :=
  ⟨avg_patients view, avg_nurses view, avg_ratio view, risk_days view⟩

/-- Result of the `pd.read_csv` call on src/dashboard.py line 62.  A
present, readable file parses to its rows; an absent file raises
`FileNotFoundError`; an existing but unreadable file raises
`PermissionError` (library behaviour of the Python file layer).  The two
exceptions are kept distinct because the `except` clause on line 69 names
only `FileNotFoundError`. -/
inductive LoadResult where
  | ok (df : List Record) : LoadResult
  | fileNotFound : LoadResult
  | permissionDenied : LoadResult
  deriving DecidableEq, Repr

/-- Outcome of one rendering cycle of the script.  Each constructor is a
distinct stop point of src/dashboard.py: the `FileNotFoundError` handler
with its curated error message (lines 67-71), an exception the script
does not catch and therefore lets propagate as a generic failure, the
`start_date > end_date` guard (lines 88-90), the `len(df_filtered) == 0`
guard (lines 120-122), and the full render with its computed
aggregates. -/
inductive Outcome where
  | dataSourceMissing : Outcome
  | uncaughtError : Outcome
  | invalidDateRange : Outcome
  | emptyResult : Outcome
  | rendered (view : List Record) (agg : Aggregates) : Outcome
  deriving DecidableEq, Repr

/-- One top-to-bottom run of src/dashboard.py.  The `try`/`except` on
lines 67-71 turns `FileNotFoundError` into the curated error message and
stop; any other exception from the load — in particular the
`PermissionError` of an existing but unreadable file — is not caught and
propagates as a generic uncaught failure.  The guards then appear in
source order: date-range validation, filtering, empty-view check,
aggregation. -/
def runDashboard (src : LoadResult) (start_date end_date : ℕ)
    (min_ratio : ℚ) : Outcome :=
  match src with
  | .fileNotFound => .dataSourceMissing
  | .permissionDenied => .uncaughtError
  | .ok df =>
    if end_date < start_date then .invalidDateRange
    else
      let view := df_filtered df ⟨start_date, end_date, min_ratio⟩
      if view.length = 0 then .emptyResult
      else .rendered view (aggregate view)

/-- A calendar date as a day-of-month, month, year triple, the result of
parsing one `D.O.A` cell. -/
structure SimpleDate where
  dayOfMonth : ℕ
  month : ℕ
  year : ℕ
  deriving DecidableEq, Repr

/-- Splitting a character list on the separator `/`. -/
def splitOnSlash : List Char → List (List Char)
  | [] => [[]]
  | c :: cs =>
    if c = '/' then [] :: splitOnSlash cs
    else
      match splitOnSlash cs with
      | [] => [[c]]
      | g :: gs => (c :: g) :: gs

/-- Reading a list of decimal digit characters as a natural number. -/
def digitsToNat (cs : List Char) : Option ℕ :=
  cs.foldl (fun acc c =>
    match acc with
    | none => none
    | some n => if c.isDigit then some (n * 10 + (c.toNat - 48)) else none)
    (some 0)

/-- Modelled from the spec: the date parsing of the loader
(src/dashboard.py line 64 delegates to
`pd.to_datetime(df['D.O.A'], dayfirst=True)`, whose parsing routine is
library code outside this repository).  A `DD/MM/YYYY` cell is split on
`/` and read day-first: first component day, second month, third year. -/
def parseDateDayFirst (s : String) : Option SimpleDate :=
  match splitOnSlash s.data with
  | [d, m, y] =>
    match digitsToNat d, digitsToNat m, digitsToNat y with
    | some dv, some mv, some yv => some ⟨dv, mv, yv⟩
    | _, _, _ => none
  | _ => none

/-- Column minimum, as `df['D.O.A'].min()` on src/dashboard.py line 81:
the earliest day number in the dataset, used as the date-picker lower
bound. -/
def colMin : List ℕ → ℕ
  | [] => 0
  | x :: xs => xs.foldl min x

/-- Column maximum (src/dashboard.py line 82). -/
def colMax : List ℕ → ℕ
  | [] => 0
  | x :: xs => xs.foldl max x

/-- Modelled from the spec: a Streamlit `date_input` with
`min_value`/`max_value` (src/dashboard.py lines 85-86) returns its default
when the user makes no choice, and otherwise a date the picker constrains
to the interval `[lo, hi]`; the constrained choice is modelled as the raw
choice clamped into the interval. -/
def date_input (default lo hi : ℕ) (choice : Option ℕ) : ℕ :=
  match choice with
  | none => default
  | some c => max lo (min hi c)

/-- Modelled from the spec: the Streamlit slider of src/dashboard.py lines
97-100 offers only values in `[lo, hi]`, defaulting to `default`; the
choice is modelled as the raw choice clamped into the interval. -/
def slider (lo hi default : ℚ) (choice : Option ℚ) : ℚ :=
  match choice with
  | none => default
  | some c => max lo (min hi c)

/-- The sidebar of src/dashboard.py lines 81-100: the date pickers are
bounded by the dataset's own date span and default to its endpoints; the
ratio slider runs over `[1, 5]` with default 1. -/
def sidebarParams (df : List Record) (userStart userEnd : Option ℕ)
    (userRatio : Option ℚ) : FilterParameters :=
  let min_dt := colMin (df.map (fun r => dtDate r.doa))
  let max_dt := colMax (df.map (fun r => dtDate r.doa))
  { start_date := date_input min_dt min_dt max_dt userStart,
    end_date := date_input max_dt min_dt max_dt userEnd,
    min_ratio := slider 1 5 1 userRatio }

/-- Helper: the date-range mask does not depend on the `min_ratio` field. -/
theorem mask_min_ratio_irrel (s e : ℕ) (r1 r2 : ℚ) :
    mask ⟨s, e, r1⟩ = mask ⟨s, e, r2⟩ := rfl

/-- C1: for `start_date ≤ end_date`, the two-step filter of the code equals
the specification's FilteredView: the subsequence of the dataset, in
original order, of records whose day-granularity date lies in
`[start_date, end_date]` inclusive and whose ratio is at least `min_ratio`. -/
theorem df_filtered_eq_specFilteredView (df : List Record) (p : FilterParameters)
    (h : p.start_date ≤ p.end_date) :
    df_filtered df p = specFilteredView df p := by
  unfold df_filtered specFilteredView
  rw [List.filter_filter]
  congr 1
  funext r
  simp only [mask, ratioMask, Bool.decide_and]
  cases hd1 : decide (p.start_date ≤ dtDate r.doa) <;>
    cases hd2 : decide (dtDate r.doa ≤ p.end_date) <;>
      cases hd3 : decide (p.min_ratio ≤ r.patients_per_nurse) <;> rfl

/-- Witness for C1 at a concrete two-record dataset. -/
theorem df_filtered_eq_specFilteredView_witness :
    df_filtered [(⟨⟨3, 5⟩, 10, 2, 5, 80⟩ : Record), (⟨⟨9, 0⟩, 8, 4, 2, 70⟩ : Record)]
        ⟨2, 7, 3⟩ =
      specFilteredView [(⟨⟨3, 5⟩, 10, 2, 5, 80⟩ : Record), (⟨⟨9, 0⟩, 8, 4, 2, 70⟩ : Record)]
        ⟨2, 7, 3⟩ :=
  df_filtered_eq_specFilteredView _ _ (by decide)

/-- C6: applying the ratio predicate before the date predicate yields the
same set of records as the code's date-then-ratio order. -/
theorem filter_order_independent (df : List Record) (p : FilterParameters)
    (r : Record) : r ∈ df_filtered df p ↔ r ∈ df_filtered_ratioFirst df p := by
  unfold df_filtered df_filtered_ratioFirst
  rw [List.filter_filter, List.filter_filter]
  simp only [List.mem_filter, Bool.and_eq_true]
  tauto

/-- C7: with the date range fixed, raising the minimum-ratio threshold can
only shrink (or preserve) the size of the filtered view. -/
theorem df_filtered_length_antitone (df : List Record) (s e : ℕ) (r1 r2 : ℚ)
    (hlo : 1 ≤ r1) (h12 : r1 ≤ r2) (hhi : r2 ≤ 5) :
    (df_filtered df ⟨s, e, r2⟩).length ≤ (df_filtered df ⟨s, e, r1⟩).length := by
  unfold df_filtered
  rw [mask_min_ratio_irrel s e r2 r1]
  refine (List.monotone_filter_right _ (fun a ha => ?_)).length_le
  simp only [ratioMask, decide_eq_true_eq] at ha ⊢
  exact le_trans h12 ha

/-- Witness for C7 at a concrete dataset and thresholds 2 ≤ 4. -/
theorem df_filtered_length_antitone_witness :
    (df_filtered [(⟨⟨3, 0⟩, 10, 2, 5, 80⟩ : Record), (⟨⟨4, 0⟩, 9, 3, 3, 75⟩ : Record)]
        ⟨2, 7, 4⟩).length ≤
      (df_filtered [(⟨⟨3, 0⟩, 10, 2, 5, 80⟩ : Record), (⟨⟨4, 0⟩, 9, 3, 3, 75⟩ : Record)]
        ⟨2, 7, 2⟩).length :=
  df_filtered_length_antitone _ 2 7 2 4 (by norm_num) (by norm_num) (by norm_num)

/-- C4: whenever the selected start date is after the end date, the run
halts at the validation guard, before the filter step is ever reached. -/
theorem runDashboard_invalidDateRange (df : List Record) (s e : ℕ) (m : ℚ)
    (h : e < s) : runDashboard (.ok df) s e m = .invalidDateRange := by
  simp [runDashboard, h]

/-- Witness for C4 at the spec scenario: start 2024-02-01, end 2024-01-01. -/
theorem runDashboard_invalidDateRange_witness :
    runDashboard (.ok [(⟨⟨20240115, 0⟩, 10, 2, 5, 80⟩ : Record)])
      20240201 20240101 1 = .invalidDateRange :=
  runDashboard_invalidDateRange _ _ _ _ (by decide)

/-- C3: with a readable source and a valid date range, an empty filtered
view makes the run halt at the no-data notice: no aggregate is computed and
nothing is rendered. -/
theorem runDashboard_emptyResult (df : List Record) (s e : ℕ) (m : ℚ)
    (hse : s ≤ e) (hempty : df_filtered df ⟨s, e, m⟩ = []) :
    runDashboard (.ok df) s e m = .emptyResult := by
  simp [runDashboard, hempty, Nat.not_lt.mpr hse]

/-- Witness for C3 at the spec scenario: `min_ratio = 5.0` against a
dataset whose maximum ratio is 4.2 gives an empty view and the no-data
outcome. -/
theorem runDashboard_emptyResult_witness :
    runDashboard (.ok [(⟨⟨20240101, 0⟩, 21, 5, 21/5, 60⟩ : Record)])
      20240101 20240101 5 = .emptyResult :=
  runDashboard_emptyResult _ _ _ _ (by decide)
    (by norm_num [df_filtered, mask, ratioMask, dtDate])

/-- C5 counterexample: the claim covers a source that is missing or
unreadable, but the `except` clause of src/dashboard.py line 69 names only
`FileNotFoundError`.  An existing but unreadable file raises
`PermissionError`, which propagates uncaught: the run ends in a generic
uncaught failure, not in the curated data-source-missing message the
claim requires. -/
theorem runDashboard_unreadable_uncaught :
    runDashboard .permissionDenied 20240101 20240102 1 = .uncaughtError ∧
      runDashboard .permissionDenied 20240101 20240102 1 ≠ .dataSourceMissing := by
  exact ⟨rfl, by decide⟩

/-- C5 (amended): a missing source file makes the run halt at the load
step with the curated data-source-missing message and no filtering,
aggregation or chart rendering; an existing but unreadable file also
halts the whole pipeline before any downstream processing, but through an
uncaught `PermissionError` surfaced as a generic failure rather than the
curated message. -/
theorem runDashboard_load_failure_halts (s e : ℕ) (m : ℚ) :
    runDashboard .fileNotFound s e m = .dataSourceMissing ∧
      runDashboard .permissionDenied s e m = .uncaughtError :=
  ⟨rfl, rfl⟩

/-- C2 counterexample: a one-record view whose patient count is 1/4 (a
value the dataset's float columns admit).  The code rounds the mean to one
decimal place, so `avg_patients` is 1/5, not the record's own 1/4 — the
claim that the averages equal the record's own values fails.  The record
is reachable as a FilteredView: the filter with a matching date range and
`min_ratio = 1` keeps exactly this record. -/
theorem aggregate_singleton_not_exact :
    df_filtered [(⟨⟨7, 0⟩, 1/4, 1/8, 2, 50⟩ : Record)] ⟨7, 7, 1⟩ =
        [(⟨⟨7, 0⟩, 1/4, 1/8, 2, 50⟩ : Record)] ∧
      avg_patients [(⟨⟨7, 0⟩, 1/4, 1/8, 2, 50⟩ : Record)] ≠
        (⟨⟨7, 0⟩, 1/4, 1/8, 2, 50⟩ : Record).patient_count := by
  constructor
  · norm_num [df_filtered, mask, ratioMask, dtDate]
  · norm_num [avg_patients, mean, roundTo, roundHalfEven]

/-- C2 (amended): on a non-empty view the aggregation returns the three
column means rounded to 1, 1 and 2 decimal places and the count of records
with ratio strictly above the fixed threshold 4.0; for a one-record view
the averages equal the record's own values rounded to those precisions,
and the risk-day count is 1 or 0 according to whether its ratio exceeds
4.0. -/
theorem aggregate_spec (view : List Record) (hne : view ≠ []) :
    aggregate view =
        ⟨roundTo 1 (mean (view.map Record.patient_count)),
         roundTo 1 (mean (view.map Record.estimated_nurse_count)),
         roundTo 2 (mean (view.map Record.patients_per_nurse)),
         (view.filter (fun r => decide ((4:ℚ) < r.patients_per_nurse))).length⟩ ∧
      ∀ r : Record, aggregate [r] =
        ⟨roundTo 1 r.patient_count, roundTo 1 r.estimated_nurse_count,
         roundTo 2 r.patients_per_nurse,
         if (4:ℚ) < r.patients_per_nurse then 1 else 0⟩ := by
  refine ⟨rfl, fun r => ?_⟩
  have hmean : ∀ x : ℚ, mean [x] = x := by
    intro x
    simp [mean]
  have hrisk : risk_days [r] = if (4:ℚ) < r.patients_per_nurse then 1 else 0 := by
    by_cases h : (4:ℚ) < r.patients_per_nurse <;>
      simp [risk_days, List.filter, h]
  simp [aggregate, avg_patients, avg_nurses, avg_ratio, hmean, hrisk]

/-- Witness for C2 (amended) at a concrete one-record view. -/
theorem aggregate_spec_witness :
    aggregate [(⟨⟨7, 0⟩, 10, 2, 5, 80⟩ : Record)] =
        ⟨roundTo 1 (mean ([(⟨⟨7, 0⟩, 10, 2, 5, 80⟩ : Record)].map Record.patient_count)),
         roundTo 1 (mean ([(⟨⟨7, 0⟩, 10, 2, 5, 80⟩ : Record)].map Record.estimated_nurse_count)),
         roundTo 2 (mean ([(⟨⟨7, 0⟩, 10, 2, 5, 80⟩ : Record)].map Record.patients_per_nurse)),
         ([(⟨⟨7, 0⟩, 10, 2, 5, 80⟩ : Record)].filter
           (fun r => decide ((4:ℚ) < r.patients_per_nurse))).length⟩ ∧
      ∀ r : Record, aggregate [r] =
        ⟨roundTo 1 r.patient_count, roundTo 1 r.estimated_nurse_count,
         roundTo 2 r.patients_per_nurse,
         if (4:ℚ) < r.patients_per_nurse then 1 else 0⟩ :=
  aggregate_spec _ (by simp)

/-- C9: the spec's round-trip scenario.  Dataset of two records
(2024-01-01: 50 patients, 10 nurses, ratio 5.0; 2024-01-02: 40 patients,
20 nurses, ratio 2.0), filtered over the full range with `min_ratio = 1`:
both records survive and the aggregates are 45.0, 15.0, 3.5 and 1 risk
day. -/
theorem roundtrip_scenario :
    df_filtered
        [(⟨⟨20240101, 0⟩, 50, 10, 5, 80⟩ : Record),
         (⟨⟨20240102, 0⟩, 40, 20, 2, 70⟩ : Record)]
        ⟨20240101, 20240102, 1⟩ =
      [(⟨⟨20240101, 0⟩, 50, 10, 5, 80⟩ : Record),
       (⟨⟨20240102, 0⟩, 40, 20, 2, 70⟩ : Record)] ∧
    aggregate
        (df_filtered
          [(⟨⟨20240101, 0⟩, 50, 10, 5, 80⟩ : Record),
           (⟨⟨20240102, 0⟩, 40, 20, 2, 70⟩ : Record)]
          ⟨20240101, 20240102, 1⟩) =
      ⟨45, 15, 7/2, 1⟩ := by
  norm_num [aggregate, df_filtered, mask, ratioMask, dtDate, avg_patients,
    avg_nurses, avg_ratio, risk_days, mean, roundTo, roundHalfEven]

/-- Helper: a separator-free chunk is returned whole by the splitter. -/
theorem splitOnSlash_no_sep (cs : List Char) (h : '/' ∉ cs) :
    splitOnSlash cs = [cs] := by
  induction cs with
  | nil => rfl
  | cons c cs ih =>
    have hc : c ≠ '/' := fun hc => h (hc ▸ List.mem_cons_self c cs)
    have hcs : '/' ∉ cs := fun hm => h (List.mem_cons_of_mem c hm)
    simp [splitOnSlash, hc, ih hcs]

/-- Helper: splitting past the first separator peels off the first chunk. -/
theorem splitOnSlash_append (ds rest : List Char) (h : '/' ∉ ds) :
    splitOnSlash (ds ++ '/' :: rest) = ds :: splitOnSlash rest := by
  induction ds with
  | nil => simp [splitOnSlash]
  | cons c cs ih =>
    have hc : c ≠ '/' := fun hc => h (hc ▸ List.mem_cons_self c cs)
    have hcs : '/' ∉ cs := fun hm => h (List.mem_cons_of_mem c hm)
    simp [splitOnSlash, hc, ih hcs]

/-- C8: the loader reads `DD/MM/YYYY` strings day-first: for any string
made of three separator-free numeric components joined by `/`, the first
component becomes the day of month, the second the month, the third the
year. -/
theorem parseDateDayFirst_dayFirst (s : String) (ds ms ys : List Char)
    (d m y : ℕ) (hs : s.data = ds ++ '/' :: (ms ++ '/' :: ys))
    (hd : '/' ∉ ds) (hm : '/' ∉ ms) (hy : '/' ∉ ys)
    (hvd : digitsToNat ds = some d) (hvm : digitsToNat ms = some m)
    (hvy : digitsToNat ys = some y) :
    parseDateDayFirst s = some ⟨d, m, y⟩ := by
  unfold parseDateDayFirst
  rw [hs, splitOnSlash_append ds _ hd, splitOnSlash_append ms _ hm,
    splitOnSlash_no_sep ys hy]
  simp [hvd, hvm, hvy]

/-- Witness for C8 at the spec input: "01/02/2024" parses to 1 February
2024, not to 2 January 2024. -/
theorem parseDateDayFirst_witness :
    parseDateDayFirst "01/02/2024" = some ⟨1, 2, 2024⟩ ∧
      parseDateDayFirst "01/02/2024" ≠ some ⟨2, 1, 2024⟩ := by
  have h := parseDateDayFirst_dayFirst "01/02/2024"
    ['0', '1'] ['0', '2'] ['2', '0', '2', '4'] 1 2 2024
    (by decide) (by decide) (by decide) (by decide)
    (by decide) (by decide) (by decide)
  exact ⟨h, by rw [h]; decide⟩

/-- Helper: folding `min` over a list never exceeds the initial value. -/
theorem foldl_min_le (xs : List ℕ) (a : ℕ) : xs.foldl min a ≤ a := by
  induction xs generalizing a with
  | nil => exact le_refl a
  | cons x xs ih => exact le_trans (ih (min a x)) (min_le_left a x)

/-- Helper: folding `max` over a list never drops below the initial
value. -/
theorem le_foldl_max (xs : List ℕ) (a : ℕ) : a ≤ xs.foldl max a := by
  induction xs generalizing a with
  | nil => exact le_refl a
  | cons x xs ih => exact le_trans (le_max_left a x) (ih (max a x))

/-- Helper: on a non-empty column the minimum is at most the maximum. -/
theorem colMin_le_colMax (l : List ℕ) (h : l ≠ []) : colMin l ≤ colMax l := by
  match l with
  | [] => exact absurd rfl h
  | x :: xs =>
    exact le_trans (foldl_min_le xs x) (le_foldl_max xs x)

/-- C10: every parameter state the sidebar can hand to the filter has its
ratio threshold in `[1, 5]` and both its dates inside the dataset's own
date span, whatever the user chooses (or leaves at the defaults). -/
theorem sidebarParams_invariant (df : List Record)
    (userStart userEnd : Option ℕ) (userRatio : Option ℚ) (hne : df ≠ []) :
    (1 ≤ (sidebarParams df userStart userEnd userRatio).min_ratio ∧
      (sidebarParams df userStart userEnd userRatio).min_ratio ≤ 5) ∧
    (colMin (df.map (fun r => dtDate r.doa)) ≤
        (sidebarParams df userStart userEnd userRatio).start_date ∧
      (sidebarParams df userStart userEnd userRatio).start_date ≤
        colMax (df.map (fun r => dtDate r.doa))) ∧
    (colMin (df.map (fun r => dtDate r.doa)) ≤
        (sidebarParams df userStart userEnd userRatio).end_date ∧
      (sidebarParams df userStart userEnd userRatio).end_date ≤
        colMax (df.map (fun r => dtDate r.doa))) := by
  have hmap : df.map (fun r => dtDate r.doa) ≠ [] := by
    simpa using hne
  have hmm : colMin (df.map (fun r => dtDate r.doa)) ≤
      colMax (df.map (fun r => dtDate r.doa)) :=
    colMin_le_colMax _ hmap
  refine ⟨?_, ?_, ?_⟩
  · cases userRatio with
    | none => exact ⟨le_refl 1, by norm_num [sidebarParams, slider]⟩
    | some c =>
      exact ⟨le_max_left _ _,
        max_le (by norm_num) (le_trans (min_le_left _ _) (le_refl _))⟩
  · cases userStart with
    | none => exact ⟨le_refl _, hmm⟩
    | some c => exact ⟨le_max_left _ _, max_le hmm (min_le_left _ _)⟩
  · cases userEnd with
    | none => exact ⟨hmm, le_refl _⟩
    | some c => exact ⟨le_max_left _ _, max_le hmm (min_le_left _ _)⟩

/-- Witness for C10 at a one-record dataset with out-of-range user
choices on every control. -/
theorem sidebarParams_invariant_witness :
    (1 ≤ (sidebarParams [(⟨⟨5, 0⟩, 10, 2, 5, 80⟩ : Record)]
          (some 99) (some 0) (some 7)).min_ratio ∧
      (sidebarParams [(⟨⟨5, 0⟩, 10, 2, 5, 80⟩ : Record)]
          (some 99) (some 0) (some 7)).min_ratio ≤ 5) ∧
    (colMin ([(⟨⟨5, 0⟩, 10, 2, 5, 80⟩ : Record)].map (fun r => dtDate r.doa)) ≤
        (sidebarParams [(⟨⟨5, 0⟩, 10, 2, 5, 80⟩ : Record)]
          (some 99) (some 0) (some 7)).start_date ∧
      (sidebarParams [(⟨⟨5, 0⟩, 10, 2, 5, 80⟩ : Record)]
          (some 99) (some 0) (some 7)).start_date ≤
        colMax ([(⟨⟨5, 0⟩, 10, 2, 5, 80⟩ : Record)].map (fun r => dtDate r.doa))) ∧
    (colMin ([(⟨⟨5, 0⟩, 10, 2, 5, 80⟩ : Record)].map (fun r => dtDate r.doa)) ≤
        (sidebarParams [(⟨⟨5, 0⟩, 10, 2, 5, 80⟩ : Record)]
          (some 99) (some 0) (some 7)).end_date ∧
      (sidebarParams [(⟨⟨5, 0⟩, 10, 2, 5, 80⟩ : Record)]
          (some 99) (some 0) (some 7)).end_date ≤
        colMax ([(⟨⟨5, 0⟩, 10, 2, 5, 80⟩ : Record)].map (fun r => dtDate r.doa))) :=
  sidebarParams_invariant _ _ _ _ (by simp)

end Dashboard
